import Mathlib

/-
Verification of the ACP (Agent Client Protocol) test-client scripts:
a shallow embedding of the protocol engine implemented (three times, in
near-identical form) by scripts/test-acp.py, .opencode/skills/acp/test-acp.py
and .opencode/skills/test-case-generation/test-gen-acp.py, together with
proofs about the event dispatcher, the streaming read loop, the
response-collection loop, the reader-thread starter and the request-id
assignment of the main flows.

Modelling conventions:
  - JSON values are the inductive type JVal; Python dicts are association
    lists (json.loads keeps the last binding for a duplicated key, so field
    lookup takes the last match).
  - One line read from the child process stdout is a Line: empty after
    strip, unparseable (json.JSONDecodeError), or parsed to a JVal.
  - queue.Queue delivery with timeouts is modelled by tagging each line
    with the idle gap (in seconds, as a rational) since the previous
    queue.get started; queue.get(timeout=t) succeeds exactly when the gap
    is at most t, and raises queue.Empty otherwise.  Exhaustion of the
    input list means no further line ever arrives, so the next get raises
    queue.Empty as well.
  - Writes to the child process stdin are recorded as EngAction values holding
    the JSON value that json.dumps would serialise; places where the Python
    code would raise an uncaught exception (for instance calling .get on a
    non-dict) are modelled as a crash outcome.
-/

/-- JSON value as produced by json.loads: null, boolean, number, string,
array, or object (association list of fields).  Numbers are restricted to
integers, which covers every frame the scripts construct or inspect. -/
inductive JVal where
  | null : JVal
  | bool : Bool → JVal
  | num : Int → JVal
  | str : String → JVal
  | arr : List JVal → JVal
  | obj : List (String × JVal) → JVal

/-- Field lookup in a Python dict built by json.loads: the last binding of
the key wins (json.loads keeps the last duplicate). -/
def lookupField (fs : List (String × JVal)) (k : String) : Option JVal :=
  (fs.reverse.find? (fun p => p.1 == k)).map Prod.snd

/-- Python `k in d` key-membership test on a dict. -/
def hasKeyF (fs : List (String × JVal)) (k : String) : Bool :=
  (lookupField fs k).isSome

/-- Python `d.get(k, default)` on a dict given as a field list. -/
def getDF (fs : List (String × JVal)) (k : String) (d : JVal) : JVal :=
  (lookupField fs k).getD d

/-- Python `v.get(k, default)` where the source guarantees v is a dict;
the non-dict arm is never reached on the code paths that use this. -/
def dictGetD (v : JVal) (k : String) (d : JVal) : JVal :=
  match v with
  | .obj fs => getDF fs k d
  | _ => d

/-- Test whether an optional JSON value equals a given Python string, as in
`parsed.get("method") == "session/update"` (None or a non-string compares
unequal). -/
def isSomeStr (v : Option JVal) (s : String) : Bool :=
  match v with
  | some (.str t) => t == s
  | _ => false

/-- Python truthiness of a JSON value. -/
def pyTruthy : JVal → Bool
  | .null => false
  | .bool b => b
  | .num n => n != 0
  | .str s => !s.isEmpty
  | .arr xs => !xs.isEmpty
  | .obj fs => !fs.isEmpty

/-- Values on which a Python slice `v[:200]` succeeds. -/
def sliceable : JVal → Bool
  | .str _ => true
  | .arr _ => true
  | _ => false

/-- Python iteration `for x in v`: lists yield their elements, dicts their
keys, strings their one-character substrings; other values raise TypeError
(modelled as none). -/
def pyIter : JVal → Option (List JVal)
  | .arr xs => some xs
  | .obj fs => some (fs.map (fun p => JVal.str p.1))
  | .str s => some (s.toList.map (fun c => JVal.str c.toString))
  | _ => none

mutual

/-- Python repr of a JSON-loaded value, used for values nested inside a
container rendered by an f-string (string escaping inside repr is not
modelled; no string printed by the scripts on the verified paths needs
it). -/
def pyRepr : JVal → String
  | .null => "None"
  | .bool true => "True"
  | .bool false => "False"
  | .num n => toString n
  | .str s => "\x27" ++ s ++ "\x27"
  | .arr xs => "[" ++ pyReprList xs ++ "]"
  | .obj fs => "\x7b" ++ pyReprFields fs ++ "\x7d"

/-- Comma-separated repr of list elements. -/
def pyReprList : List JVal → String
  | [] => ""
  | [x] => pyRepr x
  | x :: xs => pyRepr x ++ ", " ++ pyReprList xs

/-- Comma-separated repr of dict entries. -/
def pyReprFields : List (String × JVal) → String
  | [] => ""
  | [(k, v)] => "\x27" ++ k ++ "\x27: " ++ pyRepr v
  | (k, v) :: fs => "\x27" ++ k ++ "\x27: " ++ pyRepr v ++ ", " ++ pyReprFields fs

end

/-- Python str() of a value, as interpolated by an f-string: strings pass
through unquoted, containers render like repr. -/
def pyStr : JVal → String
  | .null => "None"
  | .bool true => "True"
  | .bool false => "False"
  | .num n => toString n
  | .str s => s
  | .arr xs => "[" ++ pyReprList xs ++ "]"
  | .obj fs => "\x7b" ++ pyReprFields fs ++ "\x7d"

/-- One line taken from the stdout queue, after line.strip(): empty,
non-empty but not valid JSON (json.loads raises JSONDecodeError), or
parsed to a JSON value. -/
inductive Line where
  | empty : Line
  | malformed : String → Line
  | json : JVal → Line

/-- Effect on the outside world recorded by the engine: a JSON frame
written to the child process stdin, or process termination requests (the
latter are issued only by the cleanup in main, never by the read loops). -/
inductive EngAction where
  | stdinWrite : JVal → EngAction
  | terminate : EngAction
  | kill : EngAction

/-- Structured event surfaced to the caller by the streaming loop, one per
processed line (formatting of the printed text is out of scope; the event
carries the data the print statements render). -/
inductive Ev where
  | update : JVal → Ev
  | permission : List JVal → Option JVal → Ev
  | incomingRequest : JVal → JVal → Ev
  | resultOther : JVal → Ev
  | errFrame : JVal → Ev
  | unknown : JVal → Ev
  | rawLine : String → Ev

/-- Result of dispatching one parsed frame: continue the loop (with an
event and zero or more stdin writes), return from read_streaming (the
frame carried result.stopReason), or raise an uncaught exception. -/
inductive StepRes where
  | cont : Ev → List EngAction → StepRes
  | ret : JVal → StepRes
  | crash : StepRes

/-- Test from read_streaming, permission branch: the option is a dict and
its "kind" entry is the string "allow_once" or "allow_always" (a missing
kind defaults to "", and a non-string kind is never equal to either). -/
def isAllowOpt (o : JVal) : Bool :=
  match o with
  | .obj fs =>
    match lookupField fs "kind" with
    | some (.str k) => k == "allow_once" || k == "allow_always"
    | _ => false
  | _ => false

/-- The option selected by the permission branch loop
`for opt in options: ... allow_option = opt`: each allow-class option
overwrites the previous one, so the fold keeps the last match. -/
def selectAllow (opts : List JVal) : Option JVal :=
  opts.foldl (fun acc o => if isAllowOpt o then some o else acc) none

/-- The JSON frame written to stdin in reply to session/request_permission:
outcome "selected" with the optionId of the chosen option (defaulting to
the empty string when the option has no optionId entry). -/
def permResponse (idv opt : JVal) : JVal :=
  .obj [("jsonrpc", .str "2.0"), ("id", idv),
        ("result", .obj [("outcome", .obj
          [("outcome", .str "selected"),
           ("optionId", dictGetD opt "optionId" (.str ""))])])]

/-- The JSON error frame written to stdin in reply to any other
peer-initiated request: code -32601 and a method-not-supported message. -/
def errResponse (idv m : JVal) : JVal :=
  .obj [("jsonrpc", .str "2.0"), ("id", idv),
        ("error", .obj [("code", .num (-32601)),
                        ("message", .str ("Method not supported: " ++ pyStr m))])]

/-- One element of a tool_call_update content list is handled without an
exception: the only failing spot is `text[:200] if text else ""` when the
inner text value is truthy but not sliceable. -/
def tcuElemOk (c : JVal) : Bool :=
  match c with
  | .obj cf =>
    if isSomeStr (lookupField cf "type") "content" then
      match getDF cf "content" (.obj []) with
      | .obj inf =>
        if isSomeStr (lookupField inf "type") "text" then
          let text := getDF inf "text" (.str "")
          !(pyTruthy text && !sliceable text)
        else true
      | _ => true
    else true
  | _ => true

/-- One element of availableCommands contributes a string to the
", ".join(names) call: a dict element with a non-string "name" value makes
join raise TypeError (the "?" default and non-dict elements are safe). -/
def cmdNameOk (c : JVal) : Bool :=
  match c with
  | .obj cf =>
    match lookupField cf "name" with
    | some (.str _) => true
    | some _ => false
    | none => true
  | _ => true

/-- The session/update handling raises an uncaught exception for this
update object: iterating a non-iterable entries / content /
availableCommands value, joining a non-string command name, or slicing a
truthy non-sliceable tool output text. -/
def updateCrashes (ufs : List (String × JVal)) : Bool :=
  let ut := lookupField ufs "sessionUpdate"
  if isSomeStr ut "plan" then
    !(pyIter (getDF ufs "entries" (.arr []))).isSome
  else if isSomeStr ut "tool_call_update" then
    match pyIter (getDF ufs "content" (.arr [])) with
    | none => true
    | some cs => !(cs.all tcuElemOk)
  else if isSomeStr ut "available_commands_update" then
    match pyIter (getDF ufs "availableCommands" (.arr [])) with
    | none => true
    | some cs => !(cs.all cmdNameOk)
  else false

/-- Handling of the update object of a session/update notification: the
code reads update.get("sessionUpdate") and prints a rendering of the
update, so a non-dict update raises AttributeError; otherwise the update
is surfaced to the consumer as one event, in arrival order, unless one of
the print paths raises. -/
def handleUpdate (u : JVal) : StepRes :=
  match u with
  | .obj ufs => if updateCrashes ufs then .crash else .cont (.update u) []
  | _ => .crash

/-- The update object is one the handler accepts without an exception. -/
def updateOk (u : JVal) : Bool :=
  match handleUpdate u with
  | .cont _ _ => true
  | _ => false

/-- Permission branch of read_streaming after perm_params.get("options", [])
has produced the options value: iterate the options (TypeError on a
non-iterable), remember the last allow-class option, and when one was
found and the frame has an id, write back the selected-outcome response. -/
def handlePermission (fs : List (String × JVal)) (options : JVal) : StepRes :=
  match pyIter options with
  | none => .crash
  | some opts =>
    match selectAllow opts, lookupField fs "id" with
    | some o, some idv =>
      .cont (.permission opts (some o)) [.stdinWrite (permResponse idv o)]
    | chosen, _ => .cont (.permission opts chosen) []

/-- Event dispatcher of read_streaming (identical in scripts/test-acp.py
lines 129-241 and .opencode/skills/acp/test-acp.py lines 203-320) applied
to one parsed frame.  The branch order is exactly that of the source:
method == "session/update" first (whether or not the frame carries an id),
then method == "session/request_permission", then any frame with both
method and id, then result, then error, else unknown.  A non-dict frame
raises AttributeError at parsed.get. -/
def dispatch (parsed : JVal) : StepRes :=
  match parsed with
  | .obj fs =>
    if isSomeStr (lookupField fs "method") "session/update" then
      match lookupField fs "params" with
      | none => handleUpdate (.obj [])
      | some (.obj ps) => handleUpdate (getDF ps "update" (.obj []))
      | some _ => .crash
    else if isSomeStr (lookupField fs "method") "session/request_permission" then
      match lookupField fs "params" with
      | some (.obj pfs) => handlePermission fs (getDF pfs "options" (.arr []))
      | none => handlePermission fs (.arr [])
      | some _ => .crash
    else if hasKeyF fs "method" && hasKeyF fs "id" then
      match lookupField fs "method", lookupField fs "id" with
      | some m, some idv =>
        .cont (.incomingRequest m idv) [.stdinWrite (errResponse idv m)]
      | _, _ => .crash
    else if hasKeyF fs "result" then
      match getDF fs "result" (.obj []) with
      | .obj rfs =>
        if hasKeyF rfs "stopReason" then .ret (getDF rfs "stopReason" (.str "unknown"))
        else .cont (.resultOther (.obj rfs)) []
      | r => .cont (.resultOther r) []
    else if hasKeyF fs "error" then
      match lookupField fs "error" with
      | some e => .cont (.errFrame e) []
      | none => .crash
    else .cont (.unknown parsed) []
  | _ => .crash

/-- Terminal outcome of read_streaming in scripts/test-acp.py: the prompt
response with a stopReason arrived (Completed, carrying the opaque reason
and the final message count), queue.get raised Empty (TimedOut, with the
timeout printed together with the message count), or an uncaught
exception. -/
inductive Outcome where
  | completed : JVal → Nat → Outcome
  | timedOut : ℚ → Nat → Outcome
  | crashed : Outcome

/-- Everything read_streaming produces: the events surfaced to the caller
in order, the frames written back to stdin in order, and how the loop
ended. -/
structure StreamResult where
  events : List Ev
  actions : List EngAction
  outcome : Outcome

/-- The streaming read loop of scripts/test-acp.py (read_streaming, lines
110-244): msg_count counts the successfully parsed non-empty lines; the
timeout window for queue.get is the same constant on every iteration;
empty lines are skipped, unparseable lines are surfaced as raw events, and
parsed frames go through the dispatcher until one returns a stopReason. -/
def runStream (t : ℚ) : Nat → List (ℚ × Line) → StreamResult
  | n, [] => ⟨[], [], .timedOut t n⟩
  | n, (g, l) :: rest =>
    if t < g then ⟨[], [], .timedOut t n⟩
    else
      match l with
      | .empty => runStream t n rest
      | .malformed s =>
        let r := runStream t n rest
        ⟨.rawLine s :: r.events, r.actions, r.outcome⟩
      | .json v =>
        match dispatch v with
        | .crash => ⟨[], [], .crashed⟩
        | .ret reason => ⟨[], [], .completed reason (n + 1)⟩
        | .cont ev acts =>
          let r := runStream t (n + 1) rest
          ⟨ev :: r.events, acts ++ r.actions, r.outcome⟩

/-- Entry point of the scripts/test-acp.py streaming loop. -/
def readStreaming (t : ℚ) (input : List (ℚ × Line)) : StreamResult :=
  runStream t 0 input

/-- Terminal outcome of read_streaming in .opencode/skills/acp/test-acp.py:
as for the scripts variant, but the timeout diagnostics also carry the
elapsed time since the loop started and the time since the last parsed
message (time.time() - last_msg_time). -/
inductive SkOutcome where
  | completed : JVal → Nat → SkOutcome
  | timedOut : (timeout : ℚ) → (msgCount : Nat) → (elapsed : ℚ) → (sinceLast : ℚ) → SkOutcome
  | crashed : SkOutcome

/-- Output of the skills/acp read_streaming variant. -/
structure SkResult where
  events : List Ev
  actions : List EngAction
  outcome : SkOutcome

/-- The streaming read loop of .opencode/skills/acp/test-acp.py
(read_streaming, lines 174-323): the dispatcher is the same as in the
scripts variant; in addition the loop records t_start (taken as time 0
here), the current time (now), and last_msg_time, which is updated
exactly when a non-empty line parses.  On queue.Empty the loop reports the
timeout, the message count, the elapsed time and the time since the last
parsed message. -/
def runStreamSk (t : ℚ) : Nat → ℚ → ℚ → List (ℚ × Line) → SkResult
  | n, now, lastMsg, [] => ⟨[], [], .timedOut t n (now + t) (now + t - lastMsg)⟩
  | n, now, lastMsg, (g, l) :: rest =>
    if t < g then ⟨[], [], .timedOut t n (now + t) (now + t - lastMsg)⟩
    else
      match l with
      | .empty => runStreamSk t n (now + g) lastMsg rest
      | .malformed s =>
        let r := runStreamSk t n (now + g) lastMsg rest
        ⟨.rawLine s :: r.events, r.actions, r.outcome⟩
      | .json v =>
        match dispatch v with
        | .crash => ⟨[], [], .crashed⟩
        | .ret reason => ⟨[], [], .completed reason (n + 1)⟩
        | .cont ev acts =>
          let r := runStreamSk t (n + 1) (now + g) (now + g) rest
          ⟨ev :: r.events, acts ++ r.actions, r.outcome⟩

/-- Entry point of the skills/acp streaming loop: msg_count 0, t_start and
last_msg_time both equal to the start time, taken as 0. -/
def readStreamingSkills (t : ℚ) (input : List (ℚ × Line)) : SkResult :=
  runStreamSk t 0 0 0 input

/-- The non-streaming collection loop read_responses (identical in all
three scripts): queue.get with the caller timeout, break on Empty; empty
lines are skipped and leave the window unchanged; after any other line
(parsed and collected, or unparseable and printed raw) the window becomes
the constant 1 second.  Returns the raw lines surfaced and the parsed
responses collected, each in order. -/
def runResponses (t : ℚ) : List (ℚ × Line) → List String × List JVal
  | [] => ([], [])
  | (g, l) :: rest =>
    if t < g then ([], [])
    else
      match l with
      | .empty => runResponses t rest
      | .malformed s =>
        let r := runResponses 1 rest
        (s :: r.1, r.2)
      | .json v =>
        let r := runResponses 1 rest
        (r.1, v :: r.2)

/-- The two reader threads _start_reader may spawn. -/
inductive ThreadKind where
  | stdoutReader : ThreadKind
  | stderrReader : ThreadKind
deriving DecidableEq

/-- State owned by _start_reader: the module-level _reader_started flag and
the reader threads spawned so far, in spawn order. -/
structure ReaderState where
  started : Bool
  spawned : List ThreadKind
deriving DecidableEq

/-- State before any call to _start_reader. -/
def initReaderState : ReaderState := ⟨false, []⟩

/-- One call to _start_reader (identical in all three scripts): returns at
once when _reader_started is already set, otherwise sets it and spawns the
stdout reader thread and then the stderr reader thread. -/
def startReader (s : ReaderState) : ReaderState :=
  if s.started then s
  else ⟨true, s.spawned ++ [.stdoutReader, .stderrReader]⟩

/-- The (method, request_id) pairs sent by main of scripts/test-acp.py in
order, as a function of whether initialize and session/new succeed (the
two early returns) and whether --model and --mode were given: initialize
gets id 1, session/new id 2, then req_id starts at 3 and is incremented
after each optional call, and session/prompt uses the final req_id. -/
def mainRequests (initOk sessionOk hasModel hasMode : Bool) : List (String × Nat) :=
  if !initOk then [("initialize", 1)]
  else if !sessionOk then [("initialize", 1), ("session/new", 2)]
  else
    let r1 : Nat := 3
    let modelReqs := if hasModel then [("session/set_model", r1)] else []
    let r2 := if hasModel then r1 + 1 else r1
    let modeReqs := if hasMode then [("session/set_mode", r2)] else []
    let r3 := if hasMode then r2 + 1 else r2
    [("initialize", 1), ("session/new", 2)] ++ modelReqs ++ modeReqs
      ++ [("session/prompt", r3)]

/-- The (method, request_id) pairs sent by main of
.opencode/skills/test-case-generation/test-gen-acp.py in order: the same
scheme, except that set_model and set_mode are always sent. -/
def mainRequestsGen (initOk sessionOk : Bool) : List (String × Nat) :=
  if !initOk then [("initialize", 1)]
  else if !sessionOk then [("initialize", 1), ("session/new", 2)]
  else [("initialize", 1), ("session/new", 2), ("session/set_model", 3),
        ("session/set_mode", 4), ("session/prompt", 5)]

/-- A well-formed session/update notification frame with the given update
object. -/
def updateFrame (u : JVal) : JVal :=
  .obj [("jsonrpc", .str "2.0"), ("method", .str "session/update"),
        ("params", .obj [("update", u)])]

/-- A session/update frame that also carries a request id, as a peer could
send it. -/
def updateFrameId (idv u : JVal) : JVal :=
  .obj [("jsonrpc", .str "2.0"), ("id", idv), ("method", .str "session/update"),
        ("params", .obj [("update", u)])]

/-- A JSON-RPC response frame with the given id and result value. -/
def responseFrame (idv r : JVal) : JVal :=
  .obj [("jsonrpc", .str "2.0"), ("id", idv), ("result", r)]

/-- A response frame whose result carries a stopReason, i.e. the shape
that terminates the streaming loop. -/
def promptResponse (idv reason : JVal) : JVal :=
  responseFrame idv (.obj [("stopReason", reason)])

/-- A session/request_permission reverse-request frame with the given id
and options list. -/
def permFrame (idv : JVal) (opts : List JVal) : JVal :=
  .obj [("jsonrpc", .str "2.0"), ("id", idv),
        ("method", .str "session/request_permission"),
        ("params", .obj [("options", .arr opts)])]

/-- Update object of the concrete session/update-with-id frame used to
settle claim C2: an ordinary text chunk. -/
def c2CexUpdate : JVal :=
  .obj [("sessionUpdate", .str "agent_message_chunk"),
        ("content", .obj [("type", .str "text"), ("text", .str "hi")])]

/-- Fields of a frame that carries BOTH a method (session/update) and an
id, the shape claim C2 is about. -/
def c2CexFields : List (String × JVal) :=
  [("jsonrpc", .str "2.0"), ("id", .num 7), ("method", .str "session/update"),
   ("params", .obj [("update", c2CexUpdate)])]

/-- First allow-class option of the C3 counterexample (optionId "a",
allow_once). -/
def c3OptA : JVal :=
  .obj [("optionId", .str "a"), ("name", .str "Allow once"), ("kind", .str "allow_once")]

/-- Second allow-class option of the C3 counterexample (optionId "b",
allow_always). -/
def c3OptB : JVal :=
  .obj [("optionId", .str "b"), ("name", .str "Allow always"), ("kind", .str "allow_always")]

/-- Sole option of the C4 counterexample: a reject-class option, so the
options list has no allow-class option. -/
def c4Opt : JVal :=
  .obj [("optionId", .str "r"), ("name", .str "Reject"), ("kind", .str "reject_once")]

/-- Concrete text chunk "Hello" used by the C5 witness. -/
def c5Chunk1 : JVal :=
  .obj [("sessionUpdate", .str "agent_message_chunk"),
        ("content", .obj [("type", .str "text"), ("text", .str "Hello")])]

/-- Concrete text chunk "!" used by the C5 witness. -/
def c5Chunk2 : JVal :=
  .obj [("sessionUpdate", .str "agent_message_chunk"),
        ("content", .obj [("type", .str "text"), ("text", .str "!")])]

/-- Concrete thought chunk used by the C7 witness. -/
def c7Chunk : JVal :=
  .obj [("sessionUpdate", .str "thought_chunk"),
        ("content", .obj [("type", .str "text"), ("text", .str "thinking")])]

/-- The permission-branch fold keeps the LAST allow-class option: it equals
find? over the reversed options list. -/
theorem selectAllow_eq_revFind (l : List JVal) :
    selectAllow l = l.reverse.find? isAllowOpt := by
  have h : ∀ (l : List JVal) (acc : Option JVal),
      l.foldl (fun a o => if isAllowOpt o then some o else a) acc
        = (l.reverse.find? isAllowOpt).elim acc some := by
    intro l
    induction l with
    | nil => intro acc; simp
    | cons a t ih =>
      intro acc
      simp only [List.foldl_cons, List.reverse_cons]
      rw [ih]
      cases hf : t.reverse.find? isAllowOpt with
      | some x => simp [List.find?_append, hf]
      | none =>
        by_cases hp : isAllowOpt a = true <;>
          simp [List.find?_append, hf, List.find?, hp]
  rw [selectAllow, h]
  cases l.reverse.find? isAllowOpt <;> simp

/-- An update object that the handler accepts is surfaced as exactly one
update event with no stdin write. -/
theorem handleUpdate_of_ok (u : JVal) (h : updateOk u = true) :
    handleUpdate u = .cont (.update u) [] := by
  cases u <;> simp [handleUpdate, updateOk] at h ⊢
  case obj ufs =>
    by_cases hc : updateCrashes ufs = true
    · simp [handleUpdate, hc] at h
    · simp [hc]

/-- Processing a prefix of exception-free session/update notifications
(delivered promptly) surfaces them as update events in arrival order,
writes nothing to stdin, adds their number to msg_count, and then
continues with the remaining input. -/
theorem runStream_updates_append (t : ℚ) (us : List JVal) (rest : List (ℚ × Line)) (n : Nat)
    (ht : 0 ≤ t) (hok : ∀ u ∈ us, updateOk u = true) :
    runStream t n (us.map (fun u => ((0 : ℚ), Line.json (updateFrame u))) ++ rest)
      = ⟨us.map Ev.update ++ (runStream t (n + us.length) rest).events,
         (runStream t (n + us.length) rest).actions,
         (runStream t (n + us.length) rest).outcome⟩ := by
  induction us generalizing n with
  | nil => simp
  | cons u tl ih =>
    have hnot : ¬ t < 0 := not_lt.mpr ht
    have hu : dispatch (updateFrame u) = .cont (.update u) [] := by
      have he : dispatch (updateFrame u) = handleUpdate u := rfl
      rw [he, handleUpdate_of_ok u (hok u (by simp))]
    simp only [List.map_cons, List.cons_append, runStream, hu, if_neg hnot, List.append_eq]
    rw [ih (n + 1) (fun u hu => hok u (by simp [hu]))]
    simp [Nat.add_assoc, Nat.add_comm 1 tl.length]

/-- A response frame whose result object contains stopReason terminates
the streaming loop at once, whatever its id is. -/
theorem runStream_stop (t g : ℚ) (n : Nat) (idv reason : JVal) (rest : List (ℚ × Line))
    (h : g ≤ t) :
    runStream t n ((g, .json (promptResponse idv reason)) :: rest)
      = ⟨[], [], .completed reason (n + 1)⟩ := by
  have hd : dispatch (promptResponse idv reason) = .ret reason := rfl
  simp only [runStream, hd, if_neg (not_lt.mpr h)]

/-- Skills-variant analogue: a run consisting of exception-free updates
followed by queue exhaustion times out with msg_count increased by the
number of updates, elapsed now + t, and exactly t since the last parsed
message. -/
theorem runStreamSk_updates (t : ℚ) (us : List JVal) (n : Nat) (now : ℚ)
    (ht : 0 ≤ t) (hok : ∀ u ∈ us, updateOk u = true) :
    runStreamSk t n now now (us.map (fun u => ((0 : ℚ), Line.json (updateFrame u))))
      = ⟨us.map Ev.update, [], .timedOut t (n + us.length) (now + t) t⟩ := by
  induction us generalizing n now with
  | nil => simp [runStreamSk, add_sub_cancel_left]
  | cons u tl ih =>
    have hnot : ¬ t < 0 := not_lt.mpr ht
    have hu : dispatch (updateFrame u) = .cont (.update u) [] := by
      have he : dispatch (updateFrame u) = handleUpdate u := rfl
      rw [he, handleUpdate_of_ok u (hok u (by simp))]
    simp only [List.map_cons, runStreamSk, hu, if_neg hnot, add_zero]
    rw [ih (n + 1) now (fun u hu => hok u (by simp [hu]))]
    simp [Nat.add_assoc, Nat.add_comm 1 tl.length]

/-- A permission frame whose options hold no allow-class option at all (in
the reversed-find sense) gets no reply written. -/
theorem permFrameNoAllow (idv : JVal) (opts : List JVal)
    (h : opts.reverse.find? isAllowOpt = none) :
    dispatch (permFrame idv opts) = .cont (.permission opts none) [] := by
  have hsel : selectAllow opts = none := by rw [selectAllow_eq_revFind, h]
  have hd : dispatch (permFrame idv opts)
      = handlePermission [("jsonrpc", .str "2.0"), ("id", idv),
          ("method", .str "session/request_permission"),
          ("params", .obj [("options", .arr opts)])] (.arr opts) := rfl
  rw [hd, handlePermission]
  simp only [pyIter, hsel]

/-- C1 (counterexample): with neither the model flag nor the mode flag
given, the prompt request is sent with id 3, yet a response frame whose id is 999 and whose result carries a
stopReason completes the streaming turn — the loop never compares the
response id with the prompt request id. -/
theorem c1_counterexample :
    (mainRequests true true false false).getLast? = some ("session/prompt", 3)
    ∧ (readStreaming 30 [((0 : ℚ), .json (promptResponse (.num 999) (.str "end_turn")))]).outcome
        = .completed (.str "end_turn") 1
    ∧ (999 : Int) ≠ 3 :=
  ⟨rfl, rfl, by decide⟩

/-- C1 (amended): the turn is marked Completed exactly when a frame with a
result object containing stopReason arrives, REGARDLESS of its id (the id
is universally quantified and unused); and a response frame whose result
object lacks stopReason leaves the turn in progress — the loop surfaces it
as an event and carries on with the rest of the stream unchanged. -/
theorem c1_theorem (t g : ℚ) (n : Nat) (idv reason : JVal) (rest : List (ℚ × Line))
    (h : g ≤ t) :
    (runStream t n ((g, .json (promptResponse idv reason)) :: rest)).outcome
        = .completed reason (n + 1)
    ∧ ∀ rfs : List (String × JVal), hasKeyF rfs "stopReason" = false →
        runStream t n ((g, .json (responseFrame idv (.obj rfs))) :: rest)
          = ⟨.resultOther (.obj rfs) :: (runStream t (n + 1) rest).events,
             (runStream t (n + 1) rest).actions,
             (runStream t (n + 1) rest).outcome⟩ := by
  constructor
  · rw [runStream_stop t g n idv reason rest h]
  · intro rfs hrfs
    have hd : dispatch (responseFrame idv (.obj rfs))
        = .cont (.resultOther (.obj rfs)) [] := by
      have he : dispatch (responseFrame idv (.obj rfs))
          = if hasKeyF rfs "stopReason" then .ret (getDF rfs "stopReason" (.str "unknown"))
            else .cont (.resultOther (.obj rfs)) [] := rfl
      rw [he, hrfs]
      simp
    simp only [runStream, hd, if_neg (not_lt.mpr h), List.nil_append]

/-- C1 (witness): the amended theorem applied at a concrete stop-reason
response (id 5, reason "done") and at a concrete response without a
stopReason. -/
theorem c1_witness :
    (runStream 30 0 [((0 : ℚ), .json (promptResponse (.num 5) (.str "done")))]).outcome
      = .completed (.str "done") 1
    ∧ runStream 30 0 [((0 : ℚ), .json (responseFrame (.num 5) (.obj [("ok", .bool true)])))]
      = ⟨.resultOther (.obj [("ok", .bool true)]) :: (runStream 30 1 []).events,
         (runStream 30 1 []).actions, (runStream 30 1 []).outcome⟩ :=
  ⟨(c1_theorem 30 0 0 (.num 5) (.str "done") [] (by norm_num)).1,
   (c1_theorem 30 0 0 (.num 5) (.str "done") [] (by norm_num)).2 [("ok", .bool true)] rfl⟩

/-- C2 (counterexample): a frame carrying BOTH method = session/update and
an id is dispatched by the notification branch — it yields an update event
and no stdin write, instead of being routed to the reverse-request
responder as the claim states. -/
theorem c2_counterexample :
    hasKeyF c2CexFields "method" = true ∧ hasKeyF c2CexFields "id" = true
    ∧ dispatch (.obj c2CexFields) = .cont (.update c2CexUpdate) [] :=
  ⟨rfl, rfl, rfl⟩

/-- C2 (amended): a frame with both method and id is routed to the generic
reverse-request responder (method-not-supported error written back) only
when its method is neither session/update nor session/request_permission;
session/update frames are handled by the notification branch even with an
id present (see the counterexample), and session/request_permission by the
permission branch. -/
theorem c2_theorem (fs : List (String × JVal)) (m idv : JVal)
    (hM : lookupField fs "method" = some m) (hI : lookupField fs "id" = some idv)
    (h1 : isSomeStr (some m) "session/update" = false)
    (h2 : isSomeStr (some m) "session/request_permission" = false) :
    dispatch (.obj fs)
      = .cont (.incomingRequest m idv) [.stdinWrite (errResponse idv m)] := by
  simp only [dispatch, hM, hI, h1, h2, hasKeyF, Option.isSome_some, Bool.and_self,
    Bool.false_eq_true, if_false, if_true]

/-- C2 (witness): the amended theorem applied to a concrete fs/read_text_file
reverse request with id 12. -/
theorem c2_witness :
    dispatch (.obj [("jsonrpc", .str "2.0"), ("id", .num 12),
        ("method", .str "fs/read_text_file"), ("params", .obj [])])
      = .cont (.incomingRequest (.str "fs/read_text_file") (.num 12))
          [.stdinWrite (errResponse (.num 12) (.str "fs/read_text_file"))] :=
  c2_theorem _ _ _ rfl rfl rfl rfl

/-- C3 (counterexample): with options [allow_once "a", allow_always "b"],
the first allow-class option in list order is "a", but the responder
replies with optionId "b" — the loop keeps the LAST allow-class option,
not the first. -/
theorem c3_counterexample :
    List.find? isAllowOpt [c3OptA, c3OptB] = some c3OptA
    ∧ dictGetD c3OptA "optionId" (.str "") = .str "a"
    ∧ dictGetD c3OptB "optionId" (.str "") = .str "b"
    ∧ dispatch (permFrame (.num 5) [c3OptA, c3OptB])
        = .cont (.permission [c3OptA, c3OptB] (some c3OptB))
            [.stdinWrite (permResponse (.num 5) c3OptB)]
    ∧ ("a" : String) ≠ "b" :=
  ⟨rfl, rfl, rfl, rfl, by decide⟩

/-- C3 (amended): for every session/request_permission reverse request with
an id whose options contain at least one allow-class option, the responder
immediately writes a Response with outcome selected and the optionId of
the LAST allow-class option in list order (the last element of the options
filtered to the allow class). -/
theorem c3_theorem (idv : JVal) (opts : List JVal) (o : JVal)
    (h : opts.reverse.find? isAllowOpt = some o) :
    dispatch (permFrame idv opts)
      = .cont (.permission opts (some o)) [.stdinWrite (permResponse idv o)] := by
  have hsel : selectAllow opts = some o := by rw [selectAllow_eq_revFind, h]
  have hd : dispatch (permFrame idv opts)
      = handlePermission [("jsonrpc", .str "2.0"), ("id", idv),
          ("method", .str "session/request_permission"),
          ("params", .obj [("options", .arr opts)])] (.arr opts) := rfl
  rw [hd, handlePermission]
  simp only [pyIter, hsel, lookupField, List.reverse_cons, List.reverse_nil]
  rfl

/-- C3 (witness): the amended theorem applied to a concrete request with a
single allow_once option "w". -/
theorem c3_witness :
    dispatch (permFrame (.num 8) [.obj [("optionId", .str "w"), ("kind", .str "allow_once")]])
      = .cont (.permission [.obj [("optionId", .str "w"), ("kind", .str "allow_once")]]
          (some (.obj [("optionId", .str "w"), ("kind", .str "allow_once")])))
        [.stdinWrite (permResponse (.num 8)
          (.obj [("optionId", .str "w"), ("kind", .str "allow_once")]))] :=
  c3_theorem (.num 8) _ _ rfl

/-- C4 (counterexample): a permission request with an id whose only option
is reject-class gets NO reply at all — the dispatcher produces an empty
write list, so the peer is left waiting, contrary to the claim. -/
theorem c4_counterexample :
    hasKeyF [("jsonrpc", JVal.str "2.0"), ("id", .num 6),
        ("method", .str "session/request_permission"),
        ("params", .obj [("options", .arr [c4Opt])])] "id" = true
    ∧ dispatch (permFrame (.num 6) [c4Opt]) = .cont (.permission [c4Opt] none) [] :=
  ⟨rfl, rfl⟩

/-- C4 (amended): for every session/request_permission reverse request
whose options contain no allow-class option, the responder sends NO
response whatsoever (the write list is empty); only requests carrying an
allow-class option are answered. -/
theorem c4_theorem (idv : JVal) (opts : List JVal)
    (h : ∀ o ∈ opts, isAllowOpt o = false) :
    dispatch (permFrame idv opts) = .cont (.permission opts none) [] := by
  refine permFrameNoAllow idv opts (List.find?_eq_none.mpr ?_)
  intro x hx
  simp [h x (List.mem_reverse.mp hx)]

/-- C4 (witness): the amended theorem applied to a concrete request whose
single option is reject_always. -/
theorem c4_witness :
    dispatch (permFrame (.num 11) [.obj [("optionId", .str "z"), ("kind", .str "reject_always")]])
      = .cont (.permission [.obj [("optionId", .str "z"), ("kind", .str "reject_always")]] none) [] :=
  c4_theorem (.num 11) _ (by decide)

/-- C5: for every sequence of session/update notifications N1..Nk that the
handler processes without an exception, delivered in order and followed by
a Response carrying a stopReason, the streaming consumer observes exactly
the k update events in delivery order — no reordering, dropping or
batching — and only then the Completed outcome, with msg_count k + 1. -/
theorem c5_theorem (t : ℚ) (us : List JVal) (idv reason : JVal) (ht : 0 ≤ t)
    (hok : ∀ u ∈ us, updateOk u = true) :
    readStreaming t (us.map (fun u => ((0 : ℚ), Line.json (updateFrame u)))
        ++ [((0 : ℚ), .json (promptResponse idv reason))])
      = ⟨us.map Ev.update, [], .completed reason (us.length + 1)⟩ := by
  rw [readStreaming, runStream_updates_append t us _ 0 ht hok,
    runStream_stop t 0 (0 + us.length) idv reason [] ht]
  simp

/-- C5 (witness): two concrete text chunks "Hello" and "!" followed by a
stop-reason response yield exactly the two update events in order and a
Completed outcome. -/
theorem c5_witness :
    readStreaming 30 ([c5Chunk1, c5Chunk2].map (fun u => ((0 : ℚ), Line.json (updateFrame u)))
        ++ [((0 : ℚ), .json (promptResponse (.num 3) (.str "completed")))])
      = ⟨[Ev.update c5Chunk1, Ev.update c5Chunk2], [], .completed (.str "completed") 3⟩ := by
  have h := c5_theorem 30 [c5Chunk1, c5Chunk2] (.num 3) (.str "completed") (by norm_num) (by decide)
  simpa using h

/-- C6: a line that fails to parse as JSON is surfaced as a raw-line event
(not silently dropped) and the loop continues: the events gain exactly the
raw event, while the writes and the terminal outcome are those of the
remaining input, so the session does not terminate because of the
malformed line.  The same holds in read_responses: the raw line is
surfaced and the collected responses are unchanged. -/
theorem c6_theorem (t g g' : ℚ) (s s' : String) (n : Nat)
    (rest rest' : List (ℚ × Line)) (h : g ≤ t) (h' : g' ≤ 1) :
    runStream t n ((g, .malformed s) :: rest)
      = ⟨.rawLine s :: (runStream t n rest).events, (runStream t n rest).actions,
         (runStream t n rest).outcome⟩
    ∧ runResponses 1 ((g', .malformed s') :: rest')
      = (s' :: (runResponses 1 rest').1, (runResponses 1 rest').2) := by
  constructor
  · simp only [runStream, if_neg (not_lt.mpr h)]
  · simp only [runResponses, if_neg (not_lt.mpr h')]

/-- C6 (witness): the theorem applied to a malformed line followed by a
valid stop-reason frame, and to a malformed line in read_responses. -/
theorem c6_witness :
    runStream 30 0 [((0 : ℚ), Line.malformed "oops"),
        ((0 : ℚ), .json (promptResponse (.num 4) (.str "fin")))]
      = ⟨.rawLine "oops" ::
           (runStream 30 0 [((0 : ℚ), .json (promptResponse (.num 4) (.str "fin")))]).events,
         (runStream 30 0 [((0 : ℚ), .json (promptResponse (.num 4) (.str "fin")))]).actions,
         (runStream 30 0 [((0 : ℚ), .json (promptResponse (.num 4) (.str "fin")))]).outcome⟩
    ∧ runResponses 1 [((0 : ℚ), Line.malformed "bad")]
      = ("bad" :: (runResponses 1 []).1, (runResponses 1 []).2) :=
  ⟨(c6_theorem 30 0 0 "oops" "bad" 0
      [((0 : ℚ), .json (promptResponse (.num 4) (.str "fin")))] [] (by norm_num) (by norm_num)).1,
   (c6_theorem 30 0 0 "oops" "bad" 0
      [((0 : ℚ), .json (promptResponse (.num 4) (.str "fin")))] [] (by norm_num) (by norm_num)).2⟩

/-- C7: when the idle window elapses before completion the streaming loop
returns normally with a TimedOut outcome rather than crashing.  The skills
variant reports the message count and the time since the last message
(here exactly the timeout t, the idle window just elapsed); the scripts
variant reports the timeout value and the message count.  The loop itself
writes nothing and in particular never emits a terminate or kill action,
so the subprocess is left running at that point. -/
theorem c7_theorem (t : ℚ) (us : List JVal) (ht : 0 ≤ t)
    (hok : ∀ u ∈ us, updateOk u = true) :
    readStreamingSkills t (us.map (fun u => ((0 : ℚ), Line.json (updateFrame u))))
      = ⟨us.map Ev.update, [], .timedOut t us.length t t⟩
    ∧ (readStreaming t (us.map (fun u => ((0 : ℚ), Line.json (updateFrame u))))).outcome
        = .timedOut t us.length
    ∧ EngAction.terminate ∉
        (readStreamingSkills t (us.map (fun u => ((0 : ℚ), Line.json (updateFrame u))))).actions
    ∧ EngAction.kill ∉
        (readStreamingSkills t (us.map (fun u => ((0 : ℚ), Line.json (updateFrame u))))).actions := by
  have h1 := runStreamSk_updates t us 0 0 ht hok
  have hsk : readStreamingSkills t (us.map (fun u => ((0 : ℚ), Line.json (updateFrame u))))
      = ⟨us.map Ev.update, [], .timedOut t us.length t t⟩ := by
    rw [readStreamingSkills, h1]
    simp
  have h2 := runStream_updates_append t us [] 0 ht hok
  rw [List.append_nil] at h2
  refine ⟨hsk, ?_, ?_, ?_⟩
  · rw [readStreaming, h2]
    simp [runStream]
  · rw [hsk]
    simp
  · rw [hsk]
    simp

/-- C7 (witness): one thought chunk then queue exhaustion with a 45 second
window: TimedOut with one message seen and 45 seconds since the last one,
in both variants. -/
theorem c7_witness :
    readStreamingSkills 45 [((0 : ℚ), Line.json (updateFrame c7Chunk))]
      = ⟨[Ev.update c7Chunk], [], .timedOut 45 1 45 45⟩
    ∧ (readStreaming 45 [((0 : ℚ), Line.json (updateFrame c7Chunk))]).outcome
        = .timedOut 45 1 := by
  have h := c7_theorem 45 [c7Chunk] (by norm_num) (by decide)
  exact ⟨by simpa using h.1, by simpa using h.2.1⟩

/-- C8: starting line production is idempotent — applying _start_reader
twice equals applying it once, and after any number n of calls the spawned
reader threads are exactly the stdout reader and the stderr reader when
n is at least 1 (and none for n = 0): the read loops are spawned at most
once per process instance. -/
theorem c8_theorem :
    (∀ s, startReader (startReader s) = startReader s)
    ∧ ∀ n : Nat, (startReader^[n] initReaderState).spawned
        = if n = 0 then [] else [ThreadKind.stdoutReader, ThreadKind.stderrReader] := by
  have hfix : ∀ s : ReaderState, s.started = true → startReader s = s := by
    intro s hs
    simp [startReader, hs]
  constructor
  · intro s
    by_cases hs : s.started = true
    · rw [hfix s hs, hfix s hs]
    · have hstep : startReader s = ⟨true, s.spawned ++ [.stdoutReader, .stderrReader]⟩ := by
        simp [startReader, hs]
      rw [hstep, hfix _ rfl]
  · intro n
    cases n with
    | zero => rfl
    | succ m =>
      have h1 : startReader initReaderState
          = ⟨true, [.stdoutReader, .stderrReader]⟩ := rfl
      have h2 : ∀ k, startReader^[k]
          (⟨true, [.stdoutReader, .stderrReader]⟩ : ReaderState)
            = ⟨true, [.stdoutReader, .stderrReader]⟩ := by
        intro k
        induction k with
        | zero => rfl
        | succ j ih => rw [Function.iterate_succ_apply, hfix _ rfl, ih]
      rw [Function.iterate_succ_apply, h1, h2]
      simp

/-- C9: read_responses waits with the caller-supplied window only until the
first non-empty line: a parsed line within the window is collected and the
remaining input is processed with the fixed 1-second window (likewise
after an unparseable line), and a line arriving after more than the
current window — in particular more than 1 second after a received frame
— ends the loop, returning the collected list without it. -/
theorem c9_theorem (t g gm gl : ℚ) (v : JVal) (s : String) (l : Line)
    (rest restm restl : List (ℚ × Line)) :
    (g ≤ t → runResponses t ((g, .json v) :: rest)
        = ((runResponses 1 rest).1, v :: (runResponses 1 rest).2))
    ∧ (gm ≤ t → runResponses t ((gm, .malformed s) :: restm)
        = (s :: (runResponses 1 restm).1, (runResponses 1 restm).2))
    ∧ (t < gl → runResponses t ((gl, l) :: restl) = ([], [])) := by
  refine ⟨fun h => ?_, fun h => ?_, fun h => ?_⟩
  · simp only [runResponses, if_neg (not_lt.mpr h)]
  · simp only [runResponses, if_neg (not_lt.mpr h)]
  · simp only [runResponses, if_pos h]

/-- C9 (witness): a prompt first frame is collected under the caller
window 10; a malformed line 2 seconds in is consumed under window 10; and
a frame 2 seconds after the previous one is excluded under window 1. -/
theorem c9_witness :
    runResponses 10 [((0 : ℚ), Line.json (.num 1))]
      = ((runResponses 1 []).1, JVal.num 1 :: (runResponses 1 []).2)
    ∧ runResponses 10 [((2 : ℚ), Line.malformed "x")]
      = ("x" :: (runResponses 1 []).1, (runResponses 1 []).2)
    ∧ runResponses 1 [((2 : ℚ), Line.json (.num 9))] = ([], []) :=
  ⟨(c9_theorem 10 0 2 2 (.num 1) "x" (.json (.num 9)) [] [] []).1 (by norm_num),
   (c9_theorem 10 0 2 2 (.num 1) "x" (.json (.num 9)) [] [] []).2.1 (by norm_num),
   (c9_theorem 1 0 2 2 (.num 1) "x" (.json (.num 9)) [] [] []).2.2 (by norm_num)⟩

/-- C10: in every run of either main flow (whatever the early-return and
flag combination), the request ids issued are exactly 1, 2, ..., k in
order — consecutive positive integers starting from 1 (initialize 1,
session/new 2, each later call the previous id plus one) — hence strictly
increasing and never reused. -/
theorem c10_theorem :
    ∀ a b c d : Bool,
      ((mainRequests a b c d).map Prod.snd
          = List.range' 1 (mainRequests a b c d).length)
      ∧ ((mainRequests a b c d).map Prod.snd).Pairwise (· < ·)
      ∧ ((mainRequestsGen a b).map Prod.snd = List.range' 1 (mainRequestsGen a b).length)
      ∧ ((mainRequestsGen a b).map Prod.snd).Pairwise (· < ·) := by
  intro a b c d
  have h1 : (mainRequests a b c d).map Prod.snd
      = List.range' 1 (mainRequests a b c d).length := by
    cases a <;> cases b <;> cases c <;> cases d <;> decide
  have h2 : (mainRequestsGen a b).map Prod.snd
      = List.range' 1 (mainRequestsGen a b).length := by
    cases a <;> cases b <;> decide
  refine ⟨h1, ?_, h2, ?_⟩
  · rw [h1]
    exact List.pairwise_lt_range' _ _
  · rw [h2]
    exact List.pairwise_lt_range' _ _
